import Mathlib

/-!
Shallow embedding of the solana_sniper_bot decision engine.

Sources embedded:
  * src/strategy_config.rs — `StrategyConfig` and its presets;
  * src/strategy.rs        — `TokenEvent`, `compute_score`, `passes_basic_filters`,
                             `decide`, `should_exit`;
  * src/simulator.rs       — `Position`, `Portfolio` and the per-observation
                             Deciding step of `run_simulation` (entry decision,
                             possible buy, exit scan, removals).

`f64` values are modelled as `ℚ`; Rust's `f64::min`/`f64::max` become
`min`/`max` on `ℚ`, and the guarded division `usd_in / entry_price` keeps its
source guard.  Randomness (the slippage draw `impact` and the per-exit
multiplier `mult`), the current clock `now`, and the dexscreener re-query
(`fetch`, keyed by token id, `none` modelling a failed/empty response) are
passed in as explicit oracle arguments.  The simulator's call sites elide the
`StrategyConfig` argument that the strategy functions require; the embedding
threads one `config` value through the step.
-/

namespace SniperBot

/-- `StrategyConfig` from src/strategy_config.rs (lines 4–84). -/
structure StrategyConfig where
  min_market_cap_usd : ℚ
  max_market_cap_usd : ℚ
  min_holders : ℤ
  max_dev_hold_pct : ℚ
  min_liquidity_usd : ℚ
  reject_upgradeable : Bool
  reject_freeze_authority : Bool
  min_score_to_buy : ℚ
  require_momentum_or_graduation : Bool
  low_dev_hold_bonus : ℚ
  high_dev_hold_penalty_multiplier : ℚ
  liquidity_bonus_divisor : ℚ
  market_cap_sweet_spot_bonus : ℚ
  momentum_bonus : ℚ
  graduation_bonus : ℚ
  upgradeable_penalty : ℚ
  freeze_authority_penalty : ℚ
  stop_loss_pct : ℚ
  min_profit_target_pct : ℚ
  max_profit_target_pct : ℚ
  lp_spike_exit_multiplier : ℚ
  max_positions : ℕ
  max_sol_per_trade : ℚ
  starting_sol_balance : ℚ
  sol_usd_price : ℚ
  deriving DecidableEq

/-- `StrategyConfig::default` (src/strategy_config.rs lines 86–123). -/
def StrategyConfig.default : StrategyConfig where
  min_market_cap_usd := 5000
  max_market_cap_usd := 300000
  min_holders := 10
  max_dev_hold_pct := 15
  min_liquidity_usd := 1000
  reject_upgradeable := true
  reject_freeze_authority := true
  min_score_to_buy := 75
  require_momentum_or_graduation := true
  low_dev_hold_bonus := 10
  high_dev_hold_penalty_multiplier := 4
  liquidity_bonus_divisor := 1000
  market_cap_sweet_spot_bonus := 15
  momentum_bonus := 20
  graduation_bonus := 25
  upgradeable_penalty := 20
  freeze_authority_penalty := 15
  stop_loss_pct := 1/5
  min_profit_target_pct := 1/2
  max_profit_target_pct := 1
  lp_spike_exit_multiplier := 2
  max_positions := 5
  max_sol_per_trade := 1/2
  starting_sol_balance := 3
  sol_usd_price := 30

/-- `StrategyConfig::early_snipe` (src/strategy_config.rs lines 127–135). -/
def StrategyConfig.early_snipe : StrategyConfig :=
  { StrategyConfig.default with
    min_market_cap_usd := 1000
    min_holders := 5
    min_liquidity_usd := 500
    min_score_to_buy := 65 }

/-- `StrategyConfig::conservative` (src/strategy_config.rs lines 138–147). -/
def StrategyConfig.conservative : StrategyConfig :=
  { StrategyConfig.default with
    min_market_cap_usd := 50000
    min_holders := 200
    max_dev_hold_pct := 10
    min_liquidity_usd := 5000
    min_score_to_buy := 80 }

/-- `StrategyConfig::aggressive` (src/strategy_config.rs lines 150–160). -/
def StrategyConfig.aggressive : StrategyConfig :=
  { StrategyConfig.default with
    min_market_cap_usd := 2000
    min_holders := 3
    max_dev_hold_pct := 20
    min_liquidity_usd := 300
    min_score_to_buy := 60
    max_positions := 10 }

/-- `TokenEvent` from src/strategy.rs (lines 4–22). -/
structure TokenEvent where
  id : String
  token_type : String
  market_cap_usd : ℚ
  dev_hold_pct : ℚ
  liquidity_usd : ℚ
  holders : ℤ
  upgradeable : Bool
  freeze_authority : Bool
  momentum : Bool
  graduation : Bool
  base_price : ℚ
  dev_wallet_address : Option String
  is_dev_known_rugger : Bool
  entry_market_cap : ℚ
  raydium_lp_detected : Bool
  deriving DecidableEq

/-- The market-cap term of `compute_score` (src/strategy.rs lines 53–60):
`+ market_cap_sweet_spot_bonus` for `50_000.0 <= market_cap_usd <= 250_000.0`,
`+ 5.0` for `250_000.0 < market_cap_usd <= max_market_cap_usd`, else nothing. -/
def TokenEvent.marketCapBonus (e : TokenEvent) (config : StrategyConfig) : ℚ :=
  if e.market_cap_usd ≥ 50000 ∧ e.market_cap_usd ≤ 250000 then
    config.market_cap_sweet_spot_bonus
  else if e.market_cap_usd > 250000 ∧ e.market_cap_usd ≤ config.max_market_cap_usd then
    5
  else
    0

/-- `TokenEvent::compute_score` (src/strategy.rs lines 25–79). -/
def TokenEvent.compute_score (e : TokenEvent) (config : StrategyConfig) : ℚ :=
  if e.is_dev_known_rugger then 0
  else
    let score : ℚ := 50
    let score :=
      if e.holders ≥ config.min_holders then
        score + min (((e.holders : ℚ) - (config.min_holders : ℚ)) / 50) 30
      else
        score - ((config.min_holders : ℚ) - (e.holders : ℚ)) / 10
    let score :=
      if e.dev_hold_pct > config.max_dev_hold_pct then
        score - 100
      else if e.dev_hold_pct > 10 then
        score - (e.dev_hold_pct - 10) * config.high_dev_hold_penalty_multiplier
      else if e.dev_hold_pct < 5 then
        score + config.low_dev_hold_bonus
      else score
    let score := score + min (e.liquidity_usd / config.liquidity_bonus_divisor) 25
    let score := score + e.marketCapBonus config
    let score := if e.upgradeable then score - config.upgradeable_penalty else score
    let score := if e.freeze_authority then score - config.freeze_authority_penalty else score
    let score := if e.momentum then score + config.momentum_bonus else score
    let score := if e.graduation then score + config.graduation_bonus else score
    min (max score 0) 100

/-- `TokenEvent::passes_basic_filters` (src/strategy.rs lines 81–108). -/
def TokenEvent.passes_basic_filters (e : TokenEvent) (config : StrategyConfig) : Bool :=
  if e.is_dev_known_rugger then false
  else if e.market_cap_usd < config.min_market_cap_usd
      ∨ e.market_cap_usd > config.max_market_cap_usd then false
  else if e.holders < config.min_holders then false
  else if e.dev_hold_pct ≥ config.max_dev_hold_pct then false
  else if config.reject_upgradeable ∧ e.upgradeable then false
  else if config.reject_freeze_authority ∧ e.freeze_authority then false
  else true

/-- `TradeDecision` (src/strategy.rs lines 112–116). -/
structure TradeDecision where
  should_buy : Bool
  score : ℚ
  deriving DecidableEq

/-- `decide` (src/strategy.rs lines 118–127). -/
def decide (event : TokenEvent) (config : StrategyConfig) : TradeDecision :=
  let score := event.compute_score config
  let basic := event.passes_basic_filters config
  let should_buy := basic
    && Decidable.decide (score ≥ config.min_score_to_buy)
    && (!config.require_momentum_or_graduation || event.momentum || event.graduation)
  { should_buy := should_buy, score := score }

/-- `ExitDecision` (src/strategy.rs lines 129–133). -/
structure ExitDecision where
  should_exit : Bool
  reason : String
  deriving DecidableEq

/-- `should_exit` (src/strategy.rs lines 136–181). -/
def should_exit (event : TokenEvent) (entry_liquidity : ℚ) (config : StrategyConfig) :
    ExitDecision :=
  if event.market_cap_usd < event.entry_market_cap * (1 - config.stop_loss_pct) then
    { should_exit := true, reason := "stop_loss" }
  else
    let profit_pct := (event.market_cap_usd - event.entry_market_cap) / event.entry_market_cap
    if profit_pct ≥ config.min_profit_target_pct ∧ profit_pct ≤ config.max_profit_target_pct then
      { should_exit := true, reason := "profit_target" }
    else if event.raydium_lp_detected
        ∨ (entry_liquidity > 0
            ∧ event.liquidity_usd > entry_liquidity * config.lp_spike_exit_multiplier) then
      { should_exit := true, reason := "lp_spike" }
    else if event.graduation then
      { should_exit := true, reason := "graduation" }
    else
      { should_exit := false, reason := "" }

/-- `Position` (src/simulator.rs lines 13–21); `opened_at` is an abstract clock value. -/
structure Position where
  token_id : String
  entry_price : ℚ
  qty : ℚ
  usd_in : ℚ
  opened_at : ℕ
  score : ℚ
  deriving DecidableEq

/-- `Portfolio` (src/simulator.rs lines 8–11). -/
structure Portfolio where
  sol_balance : ℚ
  positions : List Position
  deriving DecidableEq

/-- `Portfolio::new` (src/simulator.rs lines 23–30). -/
def Portfolio.new (sol_balance : ℚ) : Portfolio :=
  { sol_balance := sol_balance, positions := [] }

/-- `sol_usd_price` (src/simulator.rs line 97). -/
def sol_usd_price : ℚ := 30

/-- `max_per_trade_sol` (src/simulator.rs line 98). -/
def max_per_trade_sol : ℚ := 1/2

/-- The entry part of one Deciding iteration (src/simulator.rs lines 119–153):
if `should_buy` and the balance exceeds `0.01` SOL and fewer than 5 positions
are open, size the trade as `min(max_per_trade_sol, sol_balance)`, apply the
slippage draw `impact` to `base_price`, guard the quantity division, debit the
balance and push the new `Position`. -/
def buyStep (config : StrategyConfig) (ev : TokenEvent) (impact : ℚ) (now : ℕ)
    (p : Portfolio) : Portfolio :=
  let score := ev.compute_score config
  let decision := decide ev config
  if decision.should_buy = true ∧ p.sol_balance > 1/100 ∧ p.positions.length < 5 then
    let to_spend_sol := min max_per_trade_sol p.sol_balance
    let entry_price := ev.base_price * impact
    let usd_in := to_spend_sol * sol_usd_price
    let qty := if entry_price > 0 then usd_in / entry_price else 0
    { sol_balance := p.sol_balance - to_spend_sol
      positions := p.positions ++
        [{ token_id := ev.id, entry_price := entry_price, qty := qty,
           usd_in := usd_in, opened_at := now, score := score }] }
  else p

/-- One iteration of the exit scan (src/simulator.rs lines 157–179): clone the
observation currently being decided, overwrite its `id` with the position's
token id, take `entry_liquidity` from the decided observation's
`liquidity_usd`, apply the dexscreener re-query result (`fetch`, keyed by
token id; `none` when the query fails or returns no pair), flag
`raydium_lp_detected` on a more-than-2x liquidity jump, and run `should_exit`. -/
def exitCheck (config : StrategyConfig) (ev : TokenEvent) (fetch : String → Option ℚ)
    (pos : Position) : ExitDecision :=
  let current_ev := { ev with id := pos.token_id }
  let entry_liquidity := ev.liquidity_usd
  let current_ev :=
    match fetch pos.token_id with
    | some current_liquidity =>
        let current_ev := { current_ev with liquidity_usd := current_liquidity }
        if current_liquidity > entry_liquidity * 2 then
          { current_ev with raydium_lp_detected := true }
        else current_ev
    | none => current_ev
  should_exit current_ev entry_liquidity config

/-- The `closed_idxs` accumulation of the exit scan (src/simulator.rs lines
156–215): enumerate the open positions and record the index of each one whose
exit check fires. -/
def collectClosedIdxs (q : Position → Bool) : ℕ → List Position → List ℕ
  | _, [] => []
  | idx, pos :: rest =>
    if q pos then idx :: collectClosedIdxs q (idx + 1) rest
    else collectClosedIdxs q (idx + 1) rest

/-- The SOL proceeds credited during the exit scan (src/simulator.rs lines
181–195): for each position whose exit check fires, `exit_price =
entry_price * mult`, `proceeds_usd = qty * exit_price`, credited as
`proceeds_usd / sol_usd_price`. -/
def collectProceeds (q : Position → Bool) (mult : ℕ → ℚ) : ℕ → List Position → ℚ
  | _, [] => 0
  | idx, pos :: rest =>
    (if q pos then pos.qty * (pos.entry_price * mult idx) / sol_usd_price else 0)
      + collectProceeds q mult (idx + 1) rest

/-- The removal pass (src/simulator.rs lines 216–218): remove the collected
indices in reverse order. -/
def removeIdxs (positions : List Position) (closed : List ℕ) : List Position :=
  closed.reverse.foldl (fun ps j => ps.eraseIdx j) positions

/-- The per-position exit predicate of one Deciding iteration. -/
def exitFires (config : StrategyConfig) (ev : TokenEvent) (fetch : String → Option ℚ)
    (pos : Position) : Bool :=
  (exitCheck config ev fetch pos).should_exit

/-- One full Deciding iteration of `run_simulation` (src/simulator.rs lines
100–219) for a single buffered observation: entry decision and possible buy,
then the exit scan over the (post-buy) open positions, then the removal pass
and the balance credit.  `impact` is the slippage draw, `mult` the per-index
exit-multiplier draw, `fetch` the dexscreener re-query oracle. -/
def decidingStep (config : StrategyConfig) (ev : TokenEvent) (impact : ℚ) (now : ℕ)
    (fetch : String → Option ℚ) (mult : ℕ → ℚ) (p : Portfolio) : Portfolio :=
  let p1 := buyStep config ev impact now p
  let closed := collectClosedIdxs (exitFires config ev fetch) 0 p1.positions
  let proceeds_sol := collectProceeds (exitFires config ev fetch) mult 0 p1.positions
  { sol_balance := p1.sol_balance + proceeds_sol
    positions := removeIdxs p1.positions closed }

/-! ### Concrete observations used by witnesses and scenario claims -/

/-- The Scenario A observation (spec §8): holders 250, dev hold 3 %, liquidity
5000, market cap 100000, momentum, no safety flags, dev not a known rugger;
the fields the scenario leaves open are set to defaults. -/
def scenarioA : TokenEvent :=
  { id := "scenA", token_type := "pumpfun", market_cap_usd := 100000, dev_hold_pct := 3,
    liquidity_usd := 5000, holders := 250, upgradeable := false, freeze_authority := false,
    momentum := true, graduation := false, base_price := 1, dev_wallet_address := none,
    is_dev_known_rugger := false, entry_market_cap := 0, raydium_lp_detected := false }

/-! ### Theorems -/

/-- C1: for every `TokenEvent` and every `StrategyConfig`, `compute_score`
returns a value in the closed interval `[0, 100]`, and
`is_dev_known_rugger = true` forces the score to be exactly `0` regardless of
every other field and parameter. -/
theorem compute_score_in_range (e : TokenEvent) (config : StrategyConfig) :
    0 ≤ e.compute_score config ∧ e.compute_score config ≤ 100 ∧
      (e.is_dev_known_rugger = true → e.compute_score config = 0) := by
  unfold TokenEvent.compute_score
  by_cases h : e.is_dev_known_rugger = true
  · simp [h]
  · simp only [h, if_false, Bool.false_eq_true]
    exact ⟨le_min (le_max_right _ _) (by norm_num), min_le_right _ _,
      fun hcontra => hcontra.elim⟩

/-- C1 witness: a known-rugger observation is scored `0` by the default
parameters. -/
theorem compute_score_in_range_witness :
    TokenEvent.compute_score
      { id := "rug", token_type := "pumpfun", market_cap_usd := 100000, dev_hold_pct := 3,
        liquidity_usd := 5000, holders := 250, upgradeable := false, freeze_authority := false,
        momentum := true, graduation := false, base_price := 1, dev_wallet_address := none,
        is_dev_known_rugger := true, entry_market_cap := 0, raydium_lp_detected := false }
      StrategyConfig.default = 0 :=
  (compute_score_in_range _ StrategyConfig.default).2.2 rfl

/-- C2: `decide` sets `should_buy = true` exactly when the basic filters pass,
the computed score reaches `min_score_to_buy`, and the momentum-or-graduation
requirement (when switched on) is met. -/
theorem decide_should_buy_iff (e : TokenEvent) (config : StrategyConfig) :
    (decide e config).should_buy = true ↔
      (e.passes_basic_filters config = true
        ∧ config.min_score_to_buy ≤ e.compute_score config
        ∧ (config.require_momentum_or_graduation = false
            ∨ e.momentum = true ∨ e.graduation = true)) := by
  unfold decide
  simp only [Bool.and_eq_true, Bool.or_eq_true, decide_eq_true_eq, Bool.not_eq_true',
    ge_iff_le]
  tauto

/-- C2 witness: the Scenario A observation satisfies all three conjuncts under
the default parameters, hence is bought. -/
theorem decide_should_buy_iff_witness :
    (decide scenarioA StrategyConfig.default).should_buy = true := by
  refine (decide_should_buy_iff scenarioA StrategyConfig.default).mpr ⟨?_, ?_, ?_⟩
  · norm_num [TokenEvent.passes_basic_filters, scenarioA, StrategyConfig.default]
  · norm_num [TokenEvent.compute_score, TokenEvent.marketCapBonus, scenarioA,
      StrategyConfig.default, min_def, max_def]
  · right; left; rfl

/-- C3: `should_exit` evaluates the four exit rules in the fixed priority order
stop_loss, profit_target, lp_spike, graduation and returns the first rule whose
condition holds; in particular a true stop_loss condition yields reason
`stop_loss` whatever the profit-target condition does, and when no condition
holds the result is `should_exit = false` with an empty reason. -/
theorem should_exit_priority (e : TokenEvent) (entry_liquidity : ℚ)
    (config : StrategyConfig) :
    (e.market_cap_usd < e.entry_market_cap * (1 - config.stop_loss_pct) →
      should_exit e entry_liquidity config = { should_exit := true, reason := "stop_loss" })
    ∧ (¬ e.market_cap_usd < e.entry_market_cap * (1 - config.stop_loss_pct) →
        (config.min_profit_target_pct
              ≤ (e.market_cap_usd - e.entry_market_cap) / e.entry_market_cap
            ∧ (e.market_cap_usd - e.entry_market_cap) / e.entry_market_cap
              ≤ config.max_profit_target_pct) →
        should_exit e entry_liquidity config
          = { should_exit := true, reason := "profit_target" })
    ∧ (¬ e.market_cap_usd < e.entry_market_cap * (1 - config.stop_loss_pct) →
        ¬ (config.min_profit_target_pct
              ≤ (e.market_cap_usd - e.entry_market_cap) / e.entry_market_cap
            ∧ (e.market_cap_usd - e.entry_market_cap) / e.entry_market_cap
              ≤ config.max_profit_target_pct) →
        (e.raydium_lp_detected = true
          ∨ (0 < entry_liquidity
              ∧ entry_liquidity * config.lp_spike_exit_multiplier < e.liquidity_usd)) →
        should_exit e entry_liquidity config
          = { should_exit := true, reason := "lp_spike" })
    ∧ (¬ e.market_cap_usd < e.entry_market_cap * (1 - config.stop_loss_pct) →
        ¬ (config.min_profit_target_pct
              ≤ (e.market_cap_usd - e.entry_market_cap) / e.entry_market_cap
            ∧ (e.market_cap_usd - e.entry_market_cap) / e.entry_market_cap
              ≤ config.max_profit_target_pct) →
        ¬ (e.raydium_lp_detected = true
            ∨ (0 < entry_liquidity
                ∧ entry_liquidity * config.lp_spike_exit_multiplier < e.liquidity_usd)) →
        e.graduation = true →
        should_exit e entry_liquidity config
          = { should_exit := true, reason := "graduation" })
    ∧ (¬ e.market_cap_usd < e.entry_market_cap * (1 - config.stop_loss_pct) →
        ¬ (config.min_profit_target_pct
              ≤ (e.market_cap_usd - e.entry_market_cap) / e.entry_market_cap
            ∧ (e.market_cap_usd - e.entry_market_cap) / e.entry_market_cap
              ≤ config.max_profit_target_pct) →
        ¬ (e.raydium_lp_detected = true
            ∨ (0 < entry_liquidity
                ∧ entry_liquidity * config.lp_spike_exit_multiplier < e.liquidity_usd)) →
        ¬ e.graduation = true →
        should_exit e entry_liquidity config
          = { should_exit := false, reason := "" }) := by
  refine ⟨fun h1 => ?_, fun h1 h2 => ?_, fun h1 h2 h3 => ?_,
    fun h1 h2 h3 h4 => ?_, fun h1 h2 h3 h4 => ?_⟩
  all_goals
    simp only [should_exit]
    split_ifs
    all_goals simp_all

/-- C3 witness: Scenario B of the spec — entry market cap 100000, stop loss
20 %, current market cap 75000 — exits with reason `stop_loss`. -/
theorem should_exit_priority_witness :
    should_exit
      { id := "scenB", token_type := "pumpfun", market_cap_usd := 75000, dev_hold_pct := 3,
        liquidity_usd := 5000, holders := 250, upgradeable := false, freeze_authority := false,
        momentum := true, graduation := false, base_price := 1, dev_wallet_address := none,
        is_dev_known_rugger := false, entry_market_cap := 100000, raydium_lp_detected := false }
      5000 StrategyConfig.default
      = { should_exit := true, reason := "stop_loss" } :=
  (should_exit_priority _ 5000 StrategyConfig.default).1 (by
    norm_num [StrategyConfig.default])

/-- C5 counterexample: with the default parameters, `min_market_cap_usd = 5000`
and `market_cap_sweet_spot_bonus = 15`, yet the observation with
`market_cap_usd = 10000` — inside `[min_market_cap_usd, 250000]` — receives a
market-cap bonus of `0`, not the sweet-spot bonus: the sweet range's lower
bound is the hardcoded `50000`, not `min_market_cap_usd`. -/
theorem marketCapBonus_min_bound_counterexample :
    TokenEvent.marketCapBonus
        { id := "c5", token_type := "pumpfun", market_cap_usd := 10000, dev_hold_pct := 3,
          liquidity_usd := 5000, holders := 250, upgradeable := false,
          freeze_authority := false, momentum := true, graduation := false, base_price := 1,
          dev_wallet_address := none, is_dev_known_rugger := false, entry_market_cap := 0,
          raydium_lp_detected := false }
        StrategyConfig.default = 0
      ∧ StrategyConfig.default.min_market_cap_usd ≤ 10000
      ∧ (10000 : ℚ) ≤ 250000
      ∧ StrategyConfig.default.market_cap_sweet_spot_bonus = 15 := by
  norm_num [TokenEvent.marketCapBonus, StrategyConfig.default]

/-- C5 (amended): the market-cap term adds `market_cap_sweet_spot_bonus`
exactly on the fixed sweet range `[50000, 250000]` (the lower bound is the
hardcoded constant `50000`, not `min_market_cap_usd`), adds the flat bonus `5`
exactly when the market cap is above the sweet range but still at most
`max_market_cap_usd`, and adds nothing otherwise. -/
theorem marketCapBonus_characterization (e : TokenEvent) (config : StrategyConfig) :
    ((50000 ≤ e.market_cap_usd ∧ e.market_cap_usd ≤ 250000) →
        e.marketCapBonus config = config.market_cap_sweet_spot_bonus)
    ∧ ((250000 < e.market_cap_usd ∧ e.market_cap_usd ≤ config.max_market_cap_usd) →
        e.marketCapBonus config = 5)
    ∧ (¬ (50000 ≤ e.market_cap_usd ∧ e.market_cap_usd ≤ 250000) →
        ¬ (250000 < e.market_cap_usd ∧ e.market_cap_usd ≤ config.max_market_cap_usd) →
        e.marketCapBonus config = 0) := by
  unfold TokenEvent.marketCapBonus
  refine ⟨fun h => if_pos h, fun h => ?_, fun h1 h2 => ?_⟩
  · rw [if_neg (fun hs => absurd h.1 (not_lt.mpr hs.2)), if_pos h]
  · rw [if_neg h1, if_neg h2]

/-- C5 witness: a market cap of 100000 sits in the sweet range and receives the
default sweet-spot bonus of 15. -/
theorem marketCapBonus_characterization_witness :
    TokenEvent.marketCapBonus scenarioA StrategyConfig.default = 15 :=
  (marketCapBonus_characterization scenarioA StrategyConfig.default).1
    (by norm_num [scenarioA])

/-- C9: the Scenario A observation — holders 250, dev hold 3 %, liquidity 5000,
market cap 100000, momentum, no safety flags, not a known rugger — scores 100
(after clamping) under the default parameters and is bought, whatever values
the fields the scenario leaves open take. -/
theorem scenario_a_entry (id token_type : String) (graduation : Bool)
    (base_price entry_market_cap : ℚ) (dev_wallet_address : Option String)
    (raydium_lp_detected : Bool) :
    TokenEvent.compute_score
        { id := id, token_type := token_type, market_cap_usd := 100000, dev_hold_pct := 3,
          liquidity_usd := 5000, holders := 250, upgradeable := false,
          freeze_authority := false, momentum := true, graduation := graduation,
          base_price := base_price, dev_wallet_address := dev_wallet_address,
          is_dev_known_rugger := false, entry_market_cap := entry_market_cap,
          raydium_lp_detected := raydium_lp_detected }
        StrategyConfig.default = 100
      ∧ (decide
          { id := id, token_type := token_type, market_cap_usd := 100000, dev_hold_pct := 3,
            liquidity_usd := 5000, holders := 250, upgradeable := false,
            freeze_authority := false, momentum := true, graduation := graduation,
            base_price := base_price, dev_wallet_address := dev_wallet_address,
            is_dev_known_rugger := false, entry_market_cap := entry_market_cap,
            raydium_lp_detected := raydium_lp_detected }
          StrategyConfig.default).should_buy = true := by
  cases graduation <;>
    norm_num [TokenEvent.compute_score, TokenEvent.marketCapBonus,
      TokenEvent.passes_basic_filters, decide, StrategyConfig.default, min_def, max_def]

/-- C10: `passes_basic_filters` never consults liquidity — changing the
observation's `liquidity_usd`, or the `min_liquidity_usd` parameter, never
changes its result. -/
theorem passes_basic_filters_ignores_liquidity (e : TokenEvent)
    (config : StrategyConfig) (l m : ℚ) :
    TokenEvent.passes_basic_filters { e with liquidity_usd := l } config
        = e.passes_basic_filters config
      ∧ e.passes_basic_filters { config with min_liquidity_usd := m }
        = e.passes_basic_filters config :=
  ⟨rfl, rfl⟩

/-! ### Helper lemmas about the exit scan and the removal pass -/

/-- Shifting the start index of the `closed_idxs` accumulation shifts every
collected index. -/
theorem collectClosedIdxs_succ (q : Position → Bool) (i : ℕ) (l : List Position) :
    collectClosedIdxs q (i + 1) l = (collectClosedIdxs q i l).map (· + 1) := by
  induction l generalizing i with
  | nil => rfl
  | cons x xs ih =>
    simp only [collectClosedIdxs]
    by_cases h : q x <;> simp [h, ih]

/-- Erasing a list of successor indices leaves the head untouched. -/
theorem foldr_eraseIdx_map_succ (s : List ℕ) (x : Position) (xs : List Position) :
    (s.map (· + 1)).foldr (fun j ps => ps.eraseIdx j) (x :: xs)
      = x :: s.foldr (fun j ps => ps.eraseIdx j) xs := by
  induction s with
  | nil => rfl
  | cons j s ih => simp [ih, List.eraseIdx]

/-- Removing, in reverse order, exactly the indices collected by the scan is
the same as filtering out the positions the predicate selects. -/
theorem removeIdxs_collectClosedIdxs_eq_filter (q : Position → Bool) (l : List Position) :
    removeIdxs l (collectClosedIdxs q 0 l) = l.filter (fun pos => !q pos) := by
  unfold removeIdxs
  rw [List.foldl_reverse]
  induction l with
  | nil => rfl
  | cons x xs ih =>
    by_cases h : q x
    · have hc : collectClosedIdxs q 0 (x :: xs)
          = 0 :: (collectClosedIdxs q 0 xs).map (· + 1) := by
        simp [collectClosedIdxs, h, collectClosedIdxs_succ]
      rw [hc, List.foldr_cons, foldr_eraseIdx_map_succ]
      simp [h, ih]
    · have hc : collectClosedIdxs q 0 (x :: xs)
          = (collectClosedIdxs q 0 xs).map (· + 1) := by
        simp [collectClosedIdxs, h, collectClosedIdxs_succ]
      rw [hc, foldr_eraseIdx_map_succ]
      simp [h, ih]

/-- Proceeds credited by the exit scan are nonnegative as soon as every open
position has a nonnegative `qty × entry_price` product and every drawn
multiplier is nonnegative. -/
theorem collectProceeds_nonneg (q : Position → Bool) (mult : ℕ → ℚ)
    (hm : ∀ i, 0 ≤ mult i) (i : ℕ) (l : List Position)
    (hl : ∀ pos ∈ l, 0 ≤ pos.qty * pos.entry_price) :
    0 ≤ collectProceeds q mult i l := by
  induction l generalizing i with
  | nil => simp [collectProceeds]
  | cons x xs ih =>
    have hx : 0 ≤ x.qty * x.entry_price := hl x (by simp)
    have hterm : 0 ≤ (if q x then x.qty * (x.entry_price * mult i) / sol_usd_price else 0) := by
      by_cases h : q x
      · rw [if_pos h, ← mul_assoc]
        exact div_nonneg (mul_nonneg hx (hm i)) (by norm_num [sol_usd_price])
      · rw [if_neg h]
    have hrest : 0 ≤ collectProceeds q mult (i + 1) xs :=
      ih (i + 1) (fun pos hp => hl pos (List.mem_cons_of_mem _ hp))
    have hdef : collectProceeds q mult i (x :: xs)
        = (if q x then x.qty * (x.entry_price * mult i) / sol_usd_price else 0)
          + collectProceeds q mult (i + 1) xs := rfl
    rw [hdef]
    exact add_nonneg hterm hrest

/-- Case analysis of the entry part of a Deciding iteration: either nothing
happens, or the guard held and the buy is executed as written in the source. -/
theorem buyStep_cases (config : StrategyConfig) (ev : TokenEvent) (impact : ℚ)
    (now : ℕ) (p : Portfolio) :
    buyStep config ev impact now p = p
      ∨ ((decide ev config).should_buy = true ∧ p.sol_balance > 1/100
          ∧ p.positions.length < 5
          ∧ buyStep config ev impact now p =
            { sol_balance := p.sol_balance - min max_per_trade_sol p.sol_balance
              positions := p.positions ++
                [{ token_id := ev.id, entry_price := ev.base_price * impact,
                   qty := if ev.base_price * impact > 0 then
                       min max_per_trade_sol p.sol_balance * sol_usd_price
                         / (ev.base_price * impact)
                     else 0,
                   usd_in := min max_per_trade_sol p.sol_balance * sol_usd_price,
                   opened_at := now, score := ev.compute_score config }] }) := by
  by_cases h : (decide ev config).should_buy = true ∧ p.sol_balance > 1/100
      ∧ p.positions.length < 5
  · exact Or.inr ⟨h.1, h.2.1, h.2.2, by rw [buyStep, if_pos h]⟩
  · exact Or.inl (by rw [buyStep, if_neg h])

/-! ### Theorems about the Deciding step -/

/-- C4 evaluation at the failing input: the exit scan of the Deciding phase
builds the observation it hands to `should_exit` from the observation
currently being decided (here one whose `entry_market_cap` is 100000 and whose
`market_cap_usd` is 1000, tripping the stop loss), not from the open
position's own entry data: two positions for the same token with entirely
different entry prices, quantities and scores receive the identical
`stop_loss` exit decision dictated by the unrelated decided observation. -/
theorem exitCheck_uses_decided_observation :
    exitCheck StrategyConfig.default
        { id := "B", token_type := "pumpfun", market_cap_usd := 1000, dev_hold_pct := 0,
          liquidity_usd := 0, holders := 0, upgradeable := false, freeze_authority := false,
          momentum := false, graduation := false, base_price := 0, dev_wallet_address := none,
          is_dev_known_rugger := false, entry_market_cap := 100000,
          raydium_lp_detected := false }
        (fun _ => none)
        { token_id := "A", entry_price := 1, qty := 10, usd_in := 300, opened_at := 0,
          score := 80 }
      = { should_exit := true, reason := "stop_loss" }
    ∧ exitCheck StrategyConfig.default
        { id := "B", token_type := "pumpfun", market_cap_usd := 1000, dev_hold_pct := 0,
          liquidity_usd := 0, holders := 0, upgradeable := false, freeze_authority := false,
          momentum := false, graduation := false, base_price := 0, dev_wallet_address := none,
          is_dev_known_rugger := false, entry_market_cap := 100000,
          raydium_lp_detected := false }
        (fun _ => none)
        { token_id := "A", entry_price := 500, qty := 2, usd_in := 40, opened_at := 7,
          score := 10 }
      = { should_exit := true, reason := "stop_loss" } := by
  constructor <;>
    norm_num [exitCheck, should_exit, StrategyConfig.default]

/-- C6 counterexample: a portfolio state satisfying the claimed preconditions
(one open position, balance 0) on which one Deciding step drives the balance
negative: the position holds `qty = -1` at `entry_price = 1`, the decided
observation trips the stop loss, and the drawn multiplier `7/10` lies in the
code's stop-loss draw band `[0.6, 0.8)`; crediting `qty × entry_price × mult /
30 = -7/300` leaves the balance below zero. -/
theorem decidingStep_negative_balance_counterexample :
    ([({ token_id := "A", entry_price := 1, qty := -1, usd_in := 30, opened_at := 0,
          score := 0 } : Position)].length ≤ 5)
      ∧ (0 : ℚ) ≤ 0
      ∧ ((3:ℚ)/5 ≤ 7/10 ∧ (7:ℚ)/10 < 3)
      ∧ (decidingStep StrategyConfig.default
          { id := "B", token_type := "pumpfun", market_cap_usd := 1000, dev_hold_pct := 0,
            liquidity_usd := 0, holders := 0, upgradeable := false, freeze_authority := false,
            momentum := false, graduation := false, base_price := 0,
            dev_wallet_address := none, is_dev_known_rugger := false,
            entry_market_cap := 100000, raydium_lp_detected := false }
          1 0 (fun _ => none) (fun _ => 7/10)
          { sol_balance := 0,
            positions :=
              [{ token_id := "A", entry_price := 1, qty := -1, usd_in := 30,
                 opened_at := 0, score := 0 }] }).sol_balance < 0 := by
  refine ⟨by norm_num, le_refl 0, by norm_num, ?_⟩
  norm_num [decidingStep, buyStep, exitCheck, exitFires, should_exit, decide,
    TokenEvent.compute_score, TokenEvent.passes_basic_filters, TokenEvent.marketCapBonus,
    collectClosedIdxs, collectProceeds, removeIdxs, sol_usd_price, max_per_trade_sol,
    StrategyConfig.default, min_def, max_def]

/-- C6 (amended): one Deciding step — entry decision, possible buy, exit scan,
removals — preserves `length ≤ 5` (the simulator's hardcoded position cap) and
`0 ≤ sol_balance`, provided additionally that every open position has a
nonnegative `qty × entry_price` product (true of every position the step
itself creates) and that the drawn exit multipliers lie in the code's draw
bands, all inside `[3/5, 3)`. -/
theorem decidingStep_preserves_invariant (config : StrategyConfig) (ev : TokenEvent)
    (impact : ℚ) (now : ℕ) (fetch : String → Option ℚ) (mult : ℕ → ℚ) (p : Portfolio)
    (hlen : p.positions.length ≤ 5) (hbal : 0 ≤ p.sol_balance)
    (hpos : ∀ pos ∈ p.positions, 0 ≤ pos.qty * pos.entry_price)
    (hmult : ∀ i, (3:ℚ)/5 ≤ mult i ∧ mult i < 3) :
    (decidingStep config ev impact now fetch mult p).positions.length ≤ 5
      ∧ 0 ≤ (decidingStep config ev impact now fetch mult p).sol_balance := by
  have hm : ∀ i, 0 ≤ mult i := fun i => le_trans (by norm_num) (hmult i).1
  obtain hb | ⟨_, hfloor, hroom, hb⟩ := buyStep_cases config ev impact now p
  all_goals
    unfold decidingStep
    rw [hb]
    dsimp only
    rw [removeIdxs_collectClosedIdxs_eq_filter]
  · exact ⟨le_trans (List.length_filter_le _ _) hlen,
      add_nonneg hbal (collectProceeds_nonneg _ mult hm 0 _ hpos)⟩
  · constructor
    · refine le_trans (List.length_filter_le _ _) ?_
      simp only [List.length_append, List.length_singleton]
      omega
    · have hmin : 0 ≤ min max_per_trade_sol p.sol_balance :=
        le_min (by norm_num [max_per_trade_sol]) (le_of_lt (lt_trans (by norm_num) hfloor))
      refine add_nonneg (by simp) ?_
      refine collectProceeds_nonneg _ mult hm 0 _ ?_
      intro pos hp
      rcases List.mem_append.mp hp with hmem | hnew
      · exact hpos pos hmem
      · have hpe : pos =
            { token_id := ev.id, entry_price := ev.base_price * impact,
              qty := if ev.base_price * impact > 0 then
                  min max_per_trade_sol p.sol_balance * sol_usd_price
                    / (ev.base_price * impact)
                else 0,
              usd_in := min max_per_trade_sol p.sol_balance * sol_usd_price,
              opened_at := now, score := ev.compute_score config } := by
          simpa using hnew
        subst hpe
        by_cases hep : ev.base_price * impact > 0
        · dsimp only
          rw [if_pos hep, div_mul_cancel₀ _ (ne_of_gt hep)]
          exact mul_nonneg hmin (by norm_num [sol_usd_price])
        · dsimp only
          rw [if_neg hep, zero_mul]

/-- C6 witness: one Deciding step from the fresh 3-SOL portfolio, with a
multiplier draw of 1 and a failed re-query, keeps the invariant. -/
theorem decidingStep_preserves_invariant_witness :
    (decidingStep StrategyConfig.default scenarioA 1 0 (fun _ => none) (fun _ => 1)
        (Portfolio.new 3)).positions.length ≤ 5
      ∧ 0 ≤ (decidingStep StrategyConfig.default scenarioA 1 0 (fun _ => none) (fun _ => 1)
          (Portfolio.new 3)).sol_balance :=
  decidingStep_preserves_invariant StrategyConfig.default scenarioA 1 0 (fun _ => none)
    (fun _ => 1) (Portfolio.new 3) (by simp [Portfolio.new]) (by norm_num [Portfolio.new])
    (by simp [Portfolio.new]) (fun i => by norm_num)

/-- C7: within one Deciding iteration every exit check observes the pre-scan
snapshot of the open-position list, and the removal pass afterwards removes
exactly the positions whose exit fired, leaving every other open position in
its insertion order: removing the collected indices in reverse equals
filtering the scanned list by the negated exit predicate. -/
theorem exit_scan_snapshot_removal (config : StrategyConfig) (ev : TokenEvent)
    (fetch : String → Option ℚ) (positions : List Position) :
    removeIdxs positions (collectClosedIdxs (exitFires config ev fetch) 0 positions)
      = positions.filter (fun pos => !exitFires config ev fetch pos) :=
  removeIdxs_collectClosedIdxs_eq_filter _ _

/-- C8: whenever the buy guard holds, the executed trade is sized
`min(max_per_trade_sol, sol_balance)`, the balance is debited by exactly that
size, and the created position has `usd_in = size × sol_usd_price` and a
division-guarded quantity: `usd_in / entry_price` if `entry_price > 0`, else
`0`. -/
theorem buy_trade_sizing (config : StrategyConfig) (ev : TokenEvent) (impact : ℚ)
    (now : ℕ) (p : Portfolio)
    (hbuy : (decide ev config).should_buy = true)
    (hbal : p.sol_balance > 1/100) (hlen : p.positions.length < 5) :
    (buyStep config ev impact now p).sol_balance
        = p.sol_balance - min max_per_trade_sol p.sol_balance
      ∧ ∃ pos : Position,
          (buyStep config ev impact now p).positions = p.positions ++ [pos]
          ∧ pos.entry_price = ev.base_price * impact
          ∧ pos.usd_in = min max_per_trade_sol p.sol_balance * sol_usd_price
          ∧ pos.qty = (if pos.entry_price > 0 then pos.usd_in / pos.entry_price else 0)
          ∧ (pos.entry_price ≤ 0 → pos.qty = 0) := by
  have hcond : (decide ev config).should_buy = true ∧ p.sol_balance > 1/100
      ∧ p.positions.length < 5 := ⟨hbuy, hbal, hlen⟩
  rw [buyStep, if_pos hcond]
  exact ⟨rfl, _, rfl, rfl, rfl, rfl, fun hle => if_neg (not_lt.mpr hle)⟩

/-- C8 witness: the Scenario A observation bought from the fresh 3-SOL
portfolio debits the balance by `min(1/2, 3) = 1/2`. -/
theorem buy_trade_sizing_witness :
    (buyStep StrategyConfig.default scenarioA 1 0 (Portfolio.new 3)).sol_balance
      = (Portfolio.new 3).sol_balance
        - min max_per_trade_sol (Portfolio.new 3).sol_balance :=
  (buy_trade_sizing StrategyConfig.default scenarioA 1 0 (Portfolio.new 3)
    (by norm_num [decide, TokenEvent.compute_score, TokenEvent.marketCapBonus,
      TokenEvent.passes_basic_filters, scenarioA, StrategyConfig.default, min_def, max_def])
    (by norm_num [Portfolio.new]) (by simp [Portfolio.new])).1

end SniperBot
